import Mathlib

/-!
Verification of the meeting-summary record processor.

The repository holds two serverless handlers that poll a Notion database for
unsent meeting summaries, render each into an email, send it, optionally call a
secondary Flask endpoint, and mark the page as sent:

* `src/functions/email-notion-summary/index.js`, second handler (lines 134-256):
  per-record `try`/`catch` around the mail send (failure skips the rest of the
  record), around the Flask call and around the Notion update (failures logged
  and ignored).
* `src/netlify/functions/send-email.js`, first handler (`exports.handler`,
  lines 8-72): no per-record error handling; the first failing step of any
  record aborts the loop and the whole invocation answers with an error body.

This file shallowly embeds both handlers.  External calls (Notion query, mail
transport, Flask endpoint, Notion update) are modelled by explicit outcome
oracles; the pure parts (field extraction with defaults, HTML rendering,
response construction) are translated function by function from the JavaScript
source.  JavaScript string primitives `split("\n")`, `trim()` and
`replace(/\n/g, "<br>")` are given executable character-level definitions.
-/

namespace MeetingSummarizer

/-! ## JavaScript string primitives, character level -/

/-- Whitespace characters removed by JavaScript `String.prototype.trim`
(restricted to the ASCII whitespace actually relevant here). -/
def isWs (c : Char) : Bool :=
  c = ' ' || c = '\t' || c = '\n' || c = '\r' || c = '\x0b' || c = '\x0c'

/-- Drop leading and trailing whitespace from a character list: the semantics
of JavaScript `trim()`. -/
def trimC (l : List Char) : List Char :=
  ((l.dropWhile isWs).reverse.dropWhile isWs).reverse

/-- JavaScript `s.trim()`. -/
def jsTrim (s : String) : String :=
  String.mk (trimC s.data)

/-- Split a character list at each newline: the semantics of JavaScript
`s.split("\n")` (the empty string yields one empty piece, a trailing newline
yields a trailing empty piece). -/
def splitNlC : List Char → List (List Char)
  | [] => [[]]
  | c :: cs =>
    let r := splitNlC cs
    if c = '\n' then [] :: r
    else
      match r with
      | [] => [[c]]
      | h :: t => (c :: h) :: t

/-- JavaScript `s.split("\n")`. -/
def jsSplitNl (s : String) : List String :=
  (splitNlC s.data).map String.mk

/-- JavaScript `s.replace(/\n/g, "<br>")`: every newline character is replaced
by the four characters of `<br>`. -/
def nlToBr (s : String) : String :=
  String.mk (s.data.flatMap (fun c => if c = '\n' then ['<', 'b', 'r', '>'] else [c]))

/-- JavaScript `Array.prototype.join("")`: concatenation of all pieces. -/
def joinAll : List String → String
  | [] => ""
  | s :: rest => s ++ joinAll rest

/-- The list-item wrapper shared by both handlers:
``(i) => `<li>${i}</li>` ``. -/
def liWrap (l : String) : String :=
  "<li>" ++ l ++ "</li>"

/-! ## Common invocation model -/

/-- An HTTP response: status code plus a JSON object body modelled as ordered
key/value pairs of strings. -/
structure HttpResponse where
  status : Nat
  body : List (String × String)
deriving DecidableEq

/-- An external call performed during the loop, identified by the page it is
for: the mail send (`transporter.sendMail` / `sgMail.send`), the secondary
Flask notification (`fetch` to `/api/email-notion-summary`) and the Notion
acknowledgement (`notion.pages.update` setting the `Sent` checkbox). -/
inductive Action where
  | send (id : String)
  | notify (id : String)
  | update (id : String)
deriving DecidableEq

/-- Observable result of one invocation: the HTTP response, the external calls
attempted after the initial fetch, and the ids of the pages whose `Sent`
checkbox update succeeded (the store-side effect). -/
structure RunResult where
  response : HttpResponse
  trace : List Action
  ackedIds : List String
deriving DecidableEq

end MeetingSummarizer

namespace MeetingSummarizer.IndexFn

/-!
## `src/functions/email-notion-summary/index.js`, second handler (lines 134-256)
-/

/-- A fetched Notion page as read by the handler.  Each text field holds the
value of the fully optional chain
`page.properties[...]?.title?.[0]?.text?.content` (or `rich_text`): `none` when
any link of the chain is absent, `some s` for the extracted content. -/
structure Page where
  id : String
  url : String
  meetingName : Option String
  summary : Option String
  actionItems : Option String
  keyQuestions : Option String
deriving DecidableEq

/-- Outcome oracle for the external calls made for one page:
whether `transporter.sendMail` resolves (lines 187-193); what the Flask call
yields (lines 203-210: `none` when `fetchWithTimeout` throws or times out,
`some b` when it answers with `ok = b`); whether `flaskResp.json()` resolves
(line 216); whether `notion.pages.update` resolves (lines 224-227). -/
structure Effects where
  sendOk : Bool
  flaskResult : Option Bool
  flaskJsonOk : Bool
  updateOk : Bool
deriving DecidableEq

/-- JavaScript `v || d` on an extracted optional string: the default is used
when the chain produced no value or the empty string (the only falsy string). -/
def fieldOr (v : Option String) (d : String) : String :=
  match v with
  | none => d
  | some s => if s = "" then d else s

/-- Line 152-153. -/
def meetingNameOf (p : Page) : String :=
  fieldOr p.meetingName "No Title"

/-- Line 154-156. -/
def summaryOf (p : Page) : String :=
  fieldOr p.summary "No summary provided."

/-- Line 157-159. -/
def actionItemsOf (p : Page) : String :=
  fieldOr p.actionItems "No action items."

/-- Line 160-162. -/
def keyQuestionsOf (p : Page) : String :=
  fieldOr p.keyQuestions "No key questions."

/-- The lines kept by `.split("\n").filter((i) => i.trim())`: those whose
trimmed form is non-empty (JavaScript string truthiness). -/
def keptLines (s : String) : List String :=
  (jsSplitNl s).filter (fun l => jsTrim l != "")

/-- Lines 170-174 / 176-180: the `<ul>` content — kept lines wrapped verbatim
(untrimmed) in `<li>` tags and joined with `""`. -/
def renderList (s : String) : String :=
  joinAll ((keptLines s).map liWrap)

/-- Literal template segments of the `emailHtml` template (lines 166-182). -/
def seg1 : String := "\n        <h2>New Meeting Summary: "

/-- Template segment after the meeting name. -/
def seg2 : String := "</h2>\n        <p><strong>Summary:</strong><br>"

/-- Template segment after the summary. -/
def seg3 : String := "</p>\n        <p><strong>Action Items:</strong></p>\n        <ul>"

/-- Template segment between the two lists. -/
def seg4 : String := "</ul>\n        <p><strong>Key Questions:</strong></p>\n        <ul>"

/-- Template segment before the link. -/
def seg5 : String := "</ul>\n        <p><strong>View in Notion:</strong> <a href=\""

/-- Template segment between the href and the link text. -/
def seg6 : String := "\">"

/-- Template segment closing the document. -/
def seg7 : String := "</a></p>\n      "

/-- The rendered notification body (lines 166-182): title line, summary with
newlines replaced by `<br>`, both lists, and the link to the page url. -/
def emailHtml (p : Page) : String :=
  seg1 ++ meetingNameOf p ++ seg2 ++ nlToBr (summaryOf p) ++ seg3 ++
    renderList (actionItemsOf p) ++ seg4 ++ renderList (keyQuestionsOf p) ++
    seg5 ++ p.url ++ seg6 ++ p.url ++ seg7

/-- The mail subject (line 190). -/
def subjectOf (p : Page) : String :=
  "Meeting Summary: " ++ meetingNameOf p

/-- One iteration of the `for` loop (lines 151-232).  `sendMail` sits in its
own `try`: on failure the iteration `continue`s, so only the send was
attempted.  On send success the Flask call is attempted (its failure — throw,
non-ok status, or a failing `flaskResp.json()` — is caught and only logged),
then the Notion update is attempted (its failure is caught and only logged).
Returns the calls attempted and whether the update succeeded. -/
def processRecord (p : Page) (e : Effects) : List Action × Bool :=
  if e.sendOk then
    ([Action.send p.id, Action.notify p.id, Action.update p.id], e.updateOk)
  else
    ([Action.send p.id], false)

/-- The whole loop: records are handled strictly in order, and every record is
reached whatever happened to the previous ones.  Returns the attempted calls
and the ids of the pages whose update succeeded. -/
def runLoop : List (Page × Effects) → List Action × List String
  | [] => ([], [])
  | (p, e) :: rest =>
    let r := processRecord p e
    let rs := runLoop rest
    (r.1 ++ rs.1, (if r.2 then [p.id] else []) ++ rs.2)

/-- The success message (line 236). -/
def successMessage (n : Nat) : String :=
  "✅ Successfully processed " ++ toString n ++ " meeting summaries."

/-- The handler (lines 134-256).  Only the initial `notion.databases.query`
can throw out of the `try` body, producing the 500 error/details response;
otherwise the loop runs to completion and the 200 message response reports the
number of fetched pages. -/
def handler (fetch : Except String (List (Page × Effects))) : RunResult :=
  match fetch with
  | Except.error msg =>
    ⟨⟨500, [("error", "Internal server error"), ("details", msg)]⟩, [], []⟩
  | Except.ok pages =>
    let r := runLoop pages
    ⟨⟨200, [("message", successMessage pages.length)]⟩, r.1, r.2⟩

end MeetingSummarizer.IndexFn

namespace MeetingSummarizer.SendEmailFn

/-!
## `src/netlify/functions/send-email.js`, first handler (lines 8-72)
-/

/-- The state of one property chain
`page.properties[...].title[0]?.text.content` as read WITHOUT optional
chaining on `properties[...]` and `.text`: a missing property object or a
missing `text` object throws a `TypeError`; an empty array short-circuits to
`undefined` (then the default applies); otherwise the content string is
read. -/
inductive JsField where
  | missingProp : JsField
  | emptyArr : JsField
  | noTextObj : JsField
  | content (s : String) : JsField
deriving DecidableEq

/-- Evaluate one extraction `chain || d` (lines 25-28). -/
def extractField (f : JsField) (d : String) : Except String String :=
  match f with
  | JsField.missingProp => Except.error "TypeError: cannot read properties of undefined"
  | JsField.noTextObj => Except.error "TypeError: cannot read properties of undefined"
  | JsField.emptyArr => Except.ok d
  | JsField.content s => Except.ok (if s = "" then d else s)

/-- A page as read by this handler. -/
structure SEPage where
  id : String
  url : String
  meetingName : JsField
  summary : JsField
  actionItems : JsField
  keyQuestions : JsField
deriving DecidableEq

/-- Line 25: note the default is `"No title"`, lowercase `t`. -/
def seMeetingNameOf (p : SEPage) : Except String String :=
  extractField p.meetingName "No title"

/-- Line 26: default `"No summary"`. -/
def seSummaryOf (p : SEPage) : Except String String :=
  extractField p.summary "No summary"

/-- Line 27: default `"No action items"`. -/
def seActionItemsOf (p : SEPage) : Except String String :=
  extractField p.actionItems "No action items"

/-- Line 28: default `"No key questions"`. -/
def seKeyQuestionsOf (p : SEPage) : Except String String :=
  extractField p.keyQuestions "No key questions"

/-- Lines 35 and 37: `split('\n').map(item => `<li>${item}</li>`).join('')` —
no filtering, empty lines become empty `<li></li>` items. -/
def seRenderList (s : String) : String :=
  joinAll ((jsSplitNl s).map liWrap)

/-- Outcome oracle for this handler's external calls per page. -/
structure SEEffects where
  sendOk : Bool
  updateOk : Bool
deriving DecidableEq

/-- One loop iteration (lines 23-60): extraction happens first and a throwing
chain aborts with its error; then `sgMail.send`, whose failure aborts; then
`notion.pages.update`, whose failure aborts.  Returns the calls attempted,
whether the update succeeded, and the aborting error if any. -/
def seProcessRecord (p : SEPage) (e : SEEffects) : List Action × Bool × Option String :=
  match seMeetingNameOf p, seSummaryOf p, seActionItemsOf p, seKeyQuestionsOf p with
  | Except.error msg, _, _, _ => ([], false, some msg)
  | _, Except.error msg, _, _ => ([], false, some msg)
  | _, _, Except.error msg, _ => ([], false, some msg)
  | _, _, _, Except.error msg => ([], false, some msg)
  | Except.ok _, Except.ok _, Except.ok _, Except.ok _ =>
    if e.sendOk then
      if e.updateOk then
        ([Action.send p.id, Action.update p.id], true, none)
      else
        ([Action.send p.id, Action.update p.id], false, some "update failed")
    else
      ([Action.send p.id], false, some "send failed")

/-- The loop: the first per-record error propagates out of the loop (there is
no per-record `catch`), so later records are never reached. -/
def seLoop : List (SEPage × SEEffects) → List Action × List String × Option String
  | [] => ([], [], none)
  | (p, e) :: rest =>
    match seProcessRecord p e with
    | (tr, acked, some msg) => (tr, (if acked then [p.id] else []), some msg)
    | (tr, acked, none) =>
      let rs := seLoop rest
      (tr ++ rs.1, (if acked then [p.id] else []) ++ rs.2.1, rs.2.2)

/-- The handler (lines 8-72): any error — the initial query throwing or any
per-record step throwing — reaches the single `catch` and yields status 500
with body `{ error: error.message }` (no `details` key); full success yields
status 200 with body `{ message: "Emails sent successfully" }`. -/
def seHandler (fetch : Except String (List (SEPage × SEEffects))) : RunResult :=
  match fetch with
  | Except.error msg => ⟨⟨500, [("error", msg)]⟩, [], []⟩
  | Except.ok pages =>
    match seLoop pages with
    | (tr, acked, some msg) => ⟨⟨500, [("error", msg)]⟩, tr, acked⟩
    | (tr, acked, none) => ⟨⟨200, [("message", "Emails sent successfully")]⟩, tr, acked⟩

end MeetingSummarizer.SendEmailFn

namespace MeetingSummarizer

/-- Modelled from the claim's words (C6): the action-item and key-question
lists are claimed to contain "exactly the non-empty, whitespace-trimmed lines
of the field" — the lines kept after trimming, each rendered in trimmed
form. -/
def claimedListLines (s : String) : List String :=
  ((jsSplitNl s).filter (fun l => jsTrim l != "")).map jsTrim

/-! ## Concrete fixtures -/

/-- All external calls succeed for this page. -/
def effAllOk : IndexFn.Effects := ⟨true, some true, true, true⟩

/-- The mail send throws (DeliveryFailed). -/
def effSendFails : IndexFn.Effects := ⟨false, none, true, true⟩

/-- The mail send succeeds but the Notion update throws (AcknowledgeFailed). -/
def effUpdateFails : IndexFn.Effects := ⟨true, some true, true, false⟩

/-- The Flask endpoint answers with a non-success status (NotifyFailed). -/
def effFlask500 : IndexFn.Effects := ⟨true, some false, true, true⟩

/-- A fully populated page. -/
def standupPage : IndexFn.Page :=
  ⟨"page-standup", "https://notion.example/standup", some "Standup",
    some "Line one\nLine two", some "Item A\nItem B", some "Open question"⟩

/-- Another fully populated page. -/
def retroPage : IndexFn.Page :=
  ⟨"page-retro", "https://notion.example/retro", some "Retro",
    some "Went well", some "Fix CI", some "Why flaky"⟩

/-- A page whose fields are absent or empty. -/
def blankFieldsPage : IndexFn.Page :=
  ⟨"page-blank", "https://notion.example/blank", none, some "", none, some ""⟩

/-- A page whose action-items field holds the empty string. -/
def emptyItemsPage : IndexFn.Page :=
  ⟨"page-empty-items", "https://notion.example/empty", some "Weekly",
    some "Notes", some "", some "Q"⟩

/-- A page whose fields carry HTML markup. -/
def markupPage : IndexFn.Page :=
  ⟨"page-markup", "https://notion.example/markup", some "<script>alert(1)</script>",
    some "<b>Bold</b>", some "<i>Act</i>", some "Q & <Q>"⟩

/-- The two-record scenario where the first delivery throws and the second
record succeeds fully. -/
def scenarioFirstFails : List (IndexFn.Page × IndexFn.Effects) :=
  [(standupPage, effSendFails), (retroPage, effAllOk)]

/-- The two-record scenario where both records succeed fully. -/
def scenarioBothOk : List (IndexFn.Page × IndexFn.Effects) :=
  [(standupPage, effAllOk), (retroPage, effAllOk)]

/-- send-email page whose `Meeting Name` title array is empty. -/
def seEmptyTitlePage : SendEmailFn.SEPage :=
  ⟨"se-empty-title", "https://notion.example/se1", SendEmailFn.JsField.emptyArr,
    SendEmailFn.JsField.content "Sum", SendEmailFn.JsField.content "Act",
    SendEmailFn.JsField.content "Q"⟩

/-- send-email page whose `Meeting Name` property object is absent. -/
def seMissingPropPage : SendEmailFn.SEPage :=
  ⟨"se-missing", "https://notion.example/se2", SendEmailFn.JsField.missingProp,
    SendEmailFn.JsField.content "Sum", SendEmailFn.JsField.content "Act",
    SendEmailFn.JsField.content "Q"⟩

/-- First record of the send-email abort scenario. -/
def seFirstPage : SendEmailFn.SEPage :=
  ⟨"se-first", "https://notion.example/se3", SendEmailFn.JsField.content "First",
    SendEmailFn.JsField.content "S1", SendEmailFn.JsField.content "A1",
    SendEmailFn.JsField.content "Q1"⟩

/-- Second record of the send-email abort scenario. -/
def seSecondPage : SendEmailFn.SEPage :=
  ⟨"se-second", "https://notion.example/se4", SendEmailFn.JsField.content "Second",
    SendEmailFn.JsField.content "S2", SendEmailFn.JsField.content "A2",
    SendEmailFn.JsField.content "Q2"⟩

/-- Two send-email records, the first of which fails to send. -/
def seScenario : List (SendEmailFn.SEPage × SendEmailFn.SEEffects) :=
  [(seFirstPage, ⟨false, true⟩), (seSecondPage, ⟨true, true⟩)]

/-! ## Helper lemmas -/

/-- `v || d` yields the default on an absent or empty field. -/
theorem fieldOr_default (v : Option String) (d : String)
    (h : v = none ∨ v = some "") : IndexFn.fieldOr v d = d := by
  rcases h with h | h <;> simp [IndexFn.fieldOr, h]

/-- `v || d` yields the value verbatim on a present, non-empty field. -/
theorem fieldOr_value (v : Option String) (d s : String)
    (hv : v = some s) (hs : s ≠ "") : IndexFn.fieldOr v d = s := by
  simp [IndexFn.fieldOr, hv, hs]

/-- The mail send is attempted for every record, whatever its fields or the
outcomes of its calls. -/
theorem send_mem_processRecord (p : IndexFn.Page) (e : IndexFn.Effects) :
    Action.send p.id ∈ (IndexFn.processRecord p e).1 := by
  cases h : e.sendOk <;> simp [IndexFn.processRecord, h]

/-- Every fetched record's send is attempted by the loop: no record aborts the
processing of a later one. -/
theorem send_mem_runLoop (pages : List (IndexFn.Page × IndexFn.Effects))
    (pe : IndexFn.Page × IndexFn.Effects) (h : pe ∈ pages) :
    Action.send pe.1.id ∈ (IndexFn.runLoop pages).1 := by
  induction pages with
  | nil => cases h
  | cons x xs ih =>
    rcases List.mem_cons.mp h with rfl | hx
    · exact List.mem_append.mpr (Or.inl (send_mem_processRecord pe.1 pe.2))
    · exact List.mem_append.mpr (Or.inr (ih hx))

/-- The successfully acknowledged pages are exactly those whose send and
update both succeeded, in order. -/
theorem runLoop_acked (pages : List (IndexFn.Page × IndexFn.Effects)) :
    (IndexFn.runLoop pages).2 =
      (pages.filter (fun pe => pe.2.sendOk && pe.2.updateOk)).map (fun pe => pe.1.id) := by
  induction pages with
  | nil => rfl
  | cons x xs ih =>
    cases hs : x.2.sendOk <;> cases hu : x.2.updateOk <;>
      simp [IndexFn.runLoop, IndexFn.processRecord, hs, hu, ih]

/-- A member of a joined-and-mapped list appears verbatim inside the joined
string. -/
theorem joinAll_decomp (f : String → String) (l : String) (ls : List String)
    (h : l ∈ ls) : ∃ a b, joinAll (ls.map f) = a ++ f l ++ b := by
  induction ls with
  | nil => cases h
  | cons x xs ih =>
    rcases List.mem_cons.mp h with rfl | hx
    · exact ⟨"", joinAll (xs.map f), by simp [joinAll, String.empty_append]⟩
    · obtain ⟨a, b, hab⟩ := ih hx
      exact ⟨f x ++ a, b, by simp [joinAll, hab, String.append_assoc]⟩

/-- A string made of whitespace only trims to the empty list. -/
theorem trimC_eq_nil (l : List Char) (h : ∀ c ∈ l, isWs c = true) :
    trimC l = [] := by
  have h1 : l.dropWhile isWs = [] := List.dropWhile_eq_nil_iff.mpr h
  simp [trimC, h1]

/-- Membership in the kept lines is exactly membership among the split lines
with a non-empty trimmed form. -/
theorem keptLines_mem (s l : String) :
    l ∈ IndexFn.keptLines s ↔ l ∈ jsSplitNl s ∧ jsTrim l ≠ "" := by
  simp [IndexFn.keptLines, List.mem_filter]

/-- Every kept line holds at least one non-whitespace character. -/
theorem keptLines_visible (s l : String) (h : l ∈ IndexFn.keptLines s) :
    ∃ c ∈ l.data, isWs c = false := by
  have hne : jsTrim l ≠ "" := ((keptLines_mem s l).mp h).2
  by_contra hc
  push_neg at hc
  have hall : ∀ c ∈ l.data, isWs c = true := by
    intro c hcl
    have := hc c hcl
    revert this
    cases isWs c <;> simp
  have : jsTrim l = "" := by
    simp [jsTrim, trimC_eq_nil l.data hall]
  exact hne this

/-- Replacing newlines is the identity on a string without newlines. -/
theorem flatMapBr_id (l : List Char) (h : ∀ c ∈ l, c ≠ '\n') :
    l.flatMap (fun c => if c = '\n' then ['<', 'b', 'r', '>'] else [c]) = l := by
  induction l with
  | nil => rfl
  | cons c cs ih =>
    have hc : c ≠ '\n' := h c (by simp)
    simp only [List.flatMap_cons, if_neg hc]
    rw [ih (fun d hd => h d (List.mem_cons_of_mem _ hd))]
    rfl

/-- `replace(/\n/g, "<br>")` leaves a newline-free string unchanged. -/
theorem nlToBr_no_newline (s : String) (h : ∀ c ∈ s.data, c ≠ '\n') :
    nlToBr s = s := by
  show String.mk _ = s
  rw [flatMapBr_id s.data h]

/-- Equality of extraction results is decidable. -/
instance exceptDecEq {ε α : Type} [DecidableEq ε] [DecidableEq α] :
    DecidableEq (Except ε α)
  | Except.error a, Except.error b =>
    if h : a = b then isTrue (by rw [h]) else isFalse (fun hh => h (by injection hh))
  | Except.ok a, Except.ok b =>
    if h : a = b then isTrue (by rw [h]) else isFalse (fun hh => h (by injection hh))
  | Except.error _, Except.ok _ => isFalse (fun hh => Except.noConfusion hh)
  | Except.ok _, Except.error _ => isFalse (fun hh => Except.noConfusion hh)

/-! ## Claims -/

/-- C1 counterexample: for a record whose email send succeeds but whose Notion
update throws, the notification was successfully delivered (and the
acknowledgement was even attempted) yet the processed flag does not become
true — refuting the "if" direction of "processed iff delivered". -/
theorem send_ok_update_fails_not_acked :
    effUpdateFails.sendOk = true
    ∧ Action.update standupPage.id ∈ (IndexFn.processRecord standupPage effUpdateFails).1
    ∧ (IndexFn.processRecord standupPage effUpdateFails).2 = false := by
  decide

/-- C1 (amended): a record's processed flag is set during an invocation iff
both its delivery and the store update succeed; when delivery fails the
iteration performs only the send attempt — neither the secondary notify nor
the acknowledgement — so a record is never marked processed without a prior
successful delivery. -/
theorem acked_iff_send_and_update (p : IndexFn.Page) (e : IndexFn.Effects) :
    ((IndexFn.processRecord p e).2 = true ↔ e.sendOk = true ∧ e.updateOk = true)
    ∧ (e.sendOk = false →
        (IndexFn.processRecord p e).1 = [Action.send p.id]
        ∧ (IndexFn.processRecord p e).2 = false) := by
  cases hs : e.sendOk <;> cases hu : e.updateOk <;> simp [IndexFn.processRecord, hs, hu]

/-- C1 witness: at a concrete record whose delivery fails, only the send was
attempted and the flag stays false. -/
theorem acked_iff_send_and_update_witness :
    (IndexFn.processRecord retroPage effSendFails).1 = [Action.send retroPage.id]
    ∧ (IndexFn.processRecord retroPage effSendFails).2 = false :=
  (acked_iff_send_and_update retroPage effSendFails).2 rfl

/-- C2 counterexample: in the send-email handler a delivery failure on the
first record aborts the invocation — the trace holds only the first record's
send, the second record's delivery is never attempted, and the invocation
answers with a 500 error body instead of a structured success result. -/
theorem seHandler_aborts_on_delivery_failure :
    (SendEmailFn.seHandler (Except.ok seScenario)).response.status = 500
    ∧ (SendEmailFn.seHandler (Except.ok seScenario)).trace = [Action.send "se-first"]
    ∧ Action.send "se-second" ∉ (SendEmailFn.seHandler (Except.ok seScenario)).trace
    ∧ (SendEmailFn.seHandler (Except.ok seScenario)).response.body = [("error", "send failed")] := by
  decide

/-- C2 (amended, email-notion-summary handler): the invocation yields an error
response exactly when the initial fetch fails; whenever the fetch succeeds,
every fetched record's delivery is attempted — no per-record failure aborts a
later record — and the structured success response is returned. -/
theorem indexHandler_isolates_record_failures
    (fetch : Except String (List (IndexFn.Page × IndexFn.Effects))) :
    ((IndexFn.handler fetch).response.status = 500 ↔ ∃ msg, fetch = Except.error msg)
    ∧ (∀ pages, fetch = Except.ok pages →
        (IndexFn.handler fetch).response =
          ⟨200, [("message", IndexFn.successMessage pages.length)]⟩
        ∧ ∀ pe ∈ pages, Action.send pe.1.id ∈ (IndexFn.handler fetch).trace) := by
  cases fetch with
  | error msg =>
    refine ⟨⟨fun _ => ⟨msg, rfl⟩, fun _ => rfl⟩, ?_⟩
    intro pages h
    exact Except.noConfusion h
  | ok pages =>
    have hstat : (IndexFn.handler (Except.ok pages)).response.status = 200 := rfl
    refine ⟨⟨fun h500 => ?_, fun hex => ?_⟩, ?_⟩
    · rw [hstat] at h500
      exact absurd h500 (by decide)
    · obtain ⟨msg, hmsg⟩ := hex
      exact Except.noConfusion hmsg
    · intro pages' h
      injection h with h'
      subst h'
      exact ⟨rfl, fun pe hpe => send_mem_runLoop pages pe hpe⟩

/-- C2 witness: in the concrete first-delivery-fails scenario the success
response is still returned and the second record's delivery is attempted. -/
theorem indexHandler_isolates_record_failures_witness :
    (IndexFn.handler (Except.ok scenarioFirstFails)).response =
      ⟨200, [("message", IndexFn.successMessage 2)]⟩
    ∧ Action.send retroPage.id ∈ (IndexFn.handler (Except.ok scenarioFirstFails)).trace := by
  obtain ⟨-, h⟩ := indexHandler_isolates_record_failures (Except.ok scenarioFirstFails)
  obtain ⟨hresp, hmem⟩ := h scenarioFirstFails rfl
  exact ⟨hresp, hmem (retroPage, effAllOk) (by decide)⟩

/-- C3: when the delivery succeeds, whatever the secondary Flask notification
does — throwing, timing out, or answering with a non-success status — the
acknowledgement step is still executed: the Notion update is attempted and
succeeds exactly when the update call itself succeeds. -/
theorem notify_failure_never_blocks_update (p : IndexFn.Page) (e : IndexFn.Effects)
    (h : e.sendOk = true) :
    Action.update p.id ∈ (IndexFn.processRecord p e).1
    ∧ (IndexFn.processRecord p e).2 = e.updateOk := by
  simp [IndexFn.processRecord, h]

/-- C3 witness: with the Flask endpoint answering a non-success status, the
update is attempted and the record is still marked processed. -/
theorem notify_failure_never_blocks_update_witness :
    Action.update standupPage.id ∈ (IndexFn.processRecord standupPage effFlask500).1
    ∧ (IndexFn.processRecord standupPage effFlask500).2 = effFlask500.updateOk :=
  notify_failure_never_blocks_update standupPage effFlask500 rfl

/-- C4 counterexample: in the claimed scenario (two records, first delivery
throws, second succeeds fully) only the second record is acknowledged, yet the
returned response is identical to the response of the run where both records
succeed: the body reports only the total, so the returned summary does not
contain the succeeded count 1. -/
theorem succeeded_count_absent_from_response :
    (IndexFn.handler (Except.ok scenarioFirstFails)).ackedIds = [retroPage.id]
    ∧ (IndexFn.handler (Except.ok scenarioBothOk)).ackedIds = [standupPage.id, retroPage.id]
    ∧ (IndexFn.handler (Except.ok scenarioFirstFails)).response =
        (IndexFn.handler (Except.ok scenarioBothOk)).response
    ∧ (IndexFn.handler (Except.ok scenarioFirstFails)).response.body =
        [("message", "✅ Successfully processed 2 meeting summaries.")] := by
  decide

/-- C4 (amended): the returned body reports only the total number of fetched
records inside a message string; the per-record success information lives only
in the store: the acknowledged pages are exactly those whose send and update
both succeeded. -/
theorem response_reports_total_only (pages : List (IndexFn.Page × IndexFn.Effects)) :
    (IndexFn.handler (Except.ok pages)).response =
      ⟨200, [("message", IndexFn.successMessage pages.length)]⟩
    ∧ (IndexFn.handler (Except.ok pages)).ackedIds =
      (pages.filter (fun pe => pe.2.sendOk && pe.2.updateOk)).map (fun pe => pe.1.id) :=
  ⟨rfl, runLoop_acked pages⟩

/-- C5 counterexample: the send-email handler substitutes `"No title"` — not
`"No Title"` — when the Meeting Name chain is empty, and a missing property
object there makes the extraction step throw instead of degrading to a
default. -/
theorem sendEmail_default_differs :
    SendEmailFn.seMeetingNameOf seEmptyTitlePage = Except.ok "No title"
    ∧ ("No title" : String) ≠ "No Title"
    ∧ SendEmailFn.seMeetingNameOf seMissingPropPage =
        Except.error "TypeError: cannot read properties of undefined" := by
  decide

/-- C5 (amended, email-notion-summary handler): extraction substitutes the
four exact default strings whenever the optional chain is absent or yields the
empty string, passes non-empty field text through verbatim, and never fails —
whatever the fields, the record still reaches its delivery attempt. -/
theorem index_extraction_defaults (p : IndexFn.Page) :
    ((p.meetingName = none ∨ p.meetingName = some "") → IndexFn.meetingNameOf p = "No Title")
    ∧ (∀ s, p.meetingName = some s → s ≠ "" → IndexFn.meetingNameOf p = s)
    ∧ ((p.summary = none ∨ p.summary = some "") → IndexFn.summaryOf p = "No summary provided.")
    ∧ (∀ s, p.summary = some s → s ≠ "" → IndexFn.summaryOf p = s)
    ∧ ((p.actionItems = none ∨ p.actionItems = some "") → IndexFn.actionItemsOf p = "No action items.")
    ∧ (∀ s, p.actionItems = some s → s ≠ "" → IndexFn.actionItemsOf p = s)
    ∧ ((p.keyQuestions = none ∨ p.keyQuestions = some "") → IndexFn.keyQuestionsOf p = "No key questions.")
    ∧ (∀ s, p.keyQuestions = some s → s ≠ "" → IndexFn.keyQuestionsOf p = s)
    ∧ (∀ e, Action.send p.id ∈ (IndexFn.processRecord p e).1) :=
  ⟨fun h => fieldOr_default _ _ h, fun _ hv hs => fieldOr_value _ _ _ hv hs,
    fun h => fieldOr_default _ _ h, fun _ hv hs => fieldOr_value _ _ _ hv hs,
    fun h => fieldOr_default _ _ h, fun _ hv hs => fieldOr_value _ _ _ hv hs,
    fun h => fieldOr_default _ _ h, fun _ hv hs => fieldOr_value _ _ _ hv hs,
    fun e => send_mem_processRecord p e⟩

/-- C5 witness: a page with absent or empty fields gets all four defaults and
its delivery is still attempted. -/
theorem index_extraction_defaults_witness :
    IndexFn.meetingNameOf blankFieldsPage = "No Title"
    ∧ IndexFn.summaryOf blankFieldsPage = "No summary provided."
    ∧ IndexFn.actionItemsOf blankFieldsPage = "No action items."
    ∧ IndexFn.keyQuestionsOf blankFieldsPage = "No key questions."
    ∧ Action.send blankFieldsPage.id ∈ (IndexFn.processRecord blankFieldsPage effAllOk).1 := by
  obtain ⟨h1, -, h2, -, h3, -, h4, -, h5⟩ := index_extraction_defaults blankFieldsPage
  exact ⟨h1 (Or.inl rfl), h2 (Or.inr rfl), h3 (Or.inl rfl), h4 (Or.inr rfl), h5 effAllOk⟩

/-- C6 counterexample: the send-email rendering splits without filtering, so
the field `"a\n\nb"` renders with an empty `<li></li>` item — not the list of
exactly the non-empty, whitespace-trimmed lines. -/
theorem sendEmail_list_keeps_empty_lines :
    SendEmailFn.seRenderList "a\n\nb" = "<li>a</li><li></li><li>b</li>"
    ∧ joinAll ((claimedListLines "a\n\nb").map liWrap) = "<li>a</li><li>b</li>"
    ∧ ("<li>a</li><li></li><li>b</li>" : String) ≠ "<li>a</li><li>b</li>" := by
  decide

/-- C6 (amended, email-notion-summary handler): the notification is the title
line, the summary with every newline replaced by `<br>`, the two `<ul>` lists
holding exactly the lines whose trimmed form is non-empty — each kept verbatim,
untrimmed — and the link to the record's url; every kept line carries at least
one visible character. -/
theorem emailHtml_structure (p : IndexFn.Page) :
    IndexFn.emailHtml p =
      "\n        <h2>New Meeting Summary: " ++ IndexFn.meetingNameOf p ++
      "</h2>\n        <p><strong>Summary:</strong><br>" ++ nlToBr (IndexFn.summaryOf p) ++
      "</p>\n        <p><strong>Action Items:</strong></p>\n        <ul>" ++
      IndexFn.renderList (IndexFn.actionItemsOf p) ++
      "</ul>\n        <p><strong>Key Questions:</strong></p>\n        <ul>" ++
      IndexFn.renderList (IndexFn.keyQuestionsOf p) ++
      "</ul>\n        <p><strong>View in Notion:</strong> <a href=\"" ++ p.url ++
      "\">" ++ p.url ++ "</a></p>\n      "
    ∧ (∀ s, IndexFn.renderList s = joinAll ((IndexFn.keptLines s).map liWrap))
    ∧ (∀ s l, l ∈ IndexFn.keptLines s ↔ l ∈ jsSplitNl s ∧ jsTrim l ≠ "")
    ∧ (∀ s l, l ∈ IndexFn.keptLines s → ∃ c ∈ l.data, isWs c = false) :=
  ⟨rfl, fun _ => rfl, fun s l => keptLines_mem s l, fun s l h => keptLines_visible s l h⟩

/-- C6 witness: the kept line of a concrete field indeed holds a visible
character. -/
theorem emailHtml_structure_witness :
    ∃ c ∈ ("Item A" : String).data, isWs c = false := by
  obtain ⟨-, -, -, h⟩ := emailHtml_structure standupPage
  exact h "Item A\nItem B" "Item A" (by decide)

/-- C7 counterexample: with an empty action-items field the default text takes
over and the rendered list section holds one item — it is not empty. -/
theorem empty_field_list_not_empty :
    IndexFn.actionItemsOf emptyItemsPage = "No action items."
    ∧ IndexFn.renderList (IndexFn.actionItemsOf emptyItemsPage) = "<li>No action items.</li>"
    ∧ ("<li>No action items.</li>" : String) ≠ "" := by
  decide

/-- C7 (amended): for a record whose action-items field is absent or empty,
rendering succeeds and the list section holds exactly one item: the default
string "No action items.". -/
theorem empty_action_items_renders_default_item (p : IndexFn.Page)
    (h : p.actionItems = none ∨ p.actionItems = some "") :
    IndexFn.actionItemsOf p = "No action items."
    ∧ IndexFn.renderList (IndexFn.actionItemsOf p) = "<li>No action items.</li>" := by
  have hd : IndexFn.actionItemsOf p = "No action items." := fieldOr_default _ _ h
  refine ⟨hd, ?_⟩
  rw [hd]
  decide

/-- C7 witness: the concrete page with an empty action-items field. -/
theorem empty_action_items_renders_default_item_witness :
    IndexFn.actionItemsOf emptyItemsPage = "No action items."
    ∧ IndexFn.renderList (IndexFn.actionItemsOf emptyItemsPage) = "<li>No action items.</li>" :=
  empty_action_items_renders_default_item emptyItemsPage (Or.inr rfl)

/-- C8 counterexample: the send-email handler's failure body is
`{ error: string }` alone — it has no `details` key, so the failure shape
`{ error: string, details: string }` does not hold for that handler. -/
theorem seHandler_error_body_lacks_details :
    (SendEmailFn.seHandler (Except.error "notion unreachable")).response =
      ⟨500, [("error", "notion unreachable")]⟩
    ∧ List.lookup "details"
        (SendEmailFn.seHandler (Except.error "notion unreachable")).response.body = none := by
  decide

/-- C8 (amended, email-notion-summary handler): a successful invocation
returns status 200 with exactly `{ message: string }`, and a failing initial
fetch returns status 500 with exactly `{ error: string, details: string }`. -/
theorem indexHandler_response_shapes
    (fetch : Except String (List (IndexFn.Page × IndexFn.Effects))) :
    (∀ pages, fetch = Except.ok pages →
      (IndexFn.handler fetch).response.status = 200
      ∧ (IndexFn.handler fetch).response.body =
          [("message", IndexFn.successMessage pages.length)])
    ∧ (∀ msg, fetch = Except.error msg →
      (IndexFn.handler fetch).response.status = 500
      ∧ (IndexFn.handler fetch).response.body =
          [("error", "Internal server error"), ("details", msg)]) := by
  constructor
  · rintro pages rfl
    exact ⟨rfl, rfl⟩
  · rintro msg rfl
    exact ⟨rfl, rfl⟩

/-- C8 witness: both shapes at concrete inputs. -/
theorem indexHandler_response_shapes_witness :
    ((IndexFn.handler (Except.ok scenarioBothOk)).response.status = 200
      ∧ (IndexFn.handler (Except.ok scenarioBothOk)).response.body =
          [("message", IndexFn.successMessage 2)])
    ∧ ((IndexFn.handler (Except.error "query failed")).response.status = 500
      ∧ (IndexFn.handler (Except.error "query failed")).response.body =
          [("error", "Internal server error"), ("details", "query failed")]) := by
  obtain ⟨h1, -⟩ := indexHandler_response_shapes (Except.ok scenarioBothOk)
  obtain ⟨-, h2⟩ := indexHandler_response_shapes (Except.error "query failed")
  exact ⟨h1 scenarioBothOk rfl, h2 "query failed" rfl⟩

/-- C9: an invocation whose fetch yields no pending records returns the
success response reporting zero processed records, with summary counts
total = 0 and succeeded = 0, and performs no external call beyond the fetch:
the trace and the acknowledged ids are empty. -/
theorem empty_fetch_no_calls :
    IndexFn.handler (Except.ok []) =
      ⟨⟨200, [("message", "✅ Successfully processed 0 meeting summaries.")]⟩, [], []⟩ := by
  decide

/-- C10: extracted field text reaches the subject and the html body verbatim,
with no HTML escaping: the subject is the literal prefix plus the title; the
title, a newline-free summary, every kept action-item or key-question line,
and the url each appear character-for-character inside the rendered html. -/
theorem fields_interpolated_verbatim (p : IndexFn.Page) :
    IndexFn.subjectOf p = "Meeting Summary: " ++ IndexFn.meetingNameOf p
    ∧ (∃ a b, IndexFn.emailHtml p = a ++ IndexFn.meetingNameOf p ++ b)
    ∧ ((∀ c ∈ (IndexFn.summaryOf p).data, c ≠ '\n') →
        ∃ a b, IndexFn.emailHtml p = a ++ IndexFn.summaryOf p ++ b)
    ∧ (∀ l ∈ IndexFn.keptLines (IndexFn.actionItemsOf p),
        ∃ a b, IndexFn.emailHtml p = a ++ ("<li>" ++ l ++ "</li>") ++ b)
    ∧ (∀ l ∈ IndexFn.keptLines (IndexFn.keyQuestionsOf p),
        ∃ a b, IndexFn.emailHtml p = a ++ ("<li>" ++ l ++ "</li>") ++ b)
    ∧ (∃ a b, IndexFn.emailHtml p = a ++ p.url ++ b) := by
  refine ⟨rfl, ?_, ?_, ?_, ?_, ?_⟩
  · exact ⟨IndexFn.seg1,
      IndexFn.seg2 ++ nlToBr (IndexFn.summaryOf p) ++ IndexFn.seg3 ++
        IndexFn.renderList (IndexFn.actionItemsOf p) ++ IndexFn.seg4 ++
        IndexFn.renderList (IndexFn.keyQuestionsOf p) ++ IndexFn.seg5 ++ p.url ++
        IndexFn.seg6 ++ p.url ++ IndexFn.seg7,
      by simp [IndexFn.emailHtml, String.append_assoc]⟩
  · intro h
    have hs := nlToBr_no_newline _ h
    exact ⟨IndexFn.seg1 ++ IndexFn.meetingNameOf p ++ IndexFn.seg2,
      IndexFn.seg3 ++ IndexFn.renderList (IndexFn.actionItemsOf p) ++ IndexFn.seg4 ++
        IndexFn.renderList (IndexFn.keyQuestionsOf p) ++ IndexFn.seg5 ++ p.url ++
        IndexFn.seg6 ++ p.url ++ IndexFn.seg7,
      by simp [IndexFn.emailHtml, hs, String.append_assoc]⟩
  · intro l hl
    obtain ⟨a, b, hab⟩ := joinAll_decomp liWrap l _ hl
    have hr : IndexFn.renderList (IndexFn.actionItemsOf p) = a ++ ("<li>" ++ l ++ "</li>") ++ b := hab
    exact ⟨IndexFn.seg1 ++ IndexFn.meetingNameOf p ++ IndexFn.seg2 ++
        nlToBr (IndexFn.summaryOf p) ++ IndexFn.seg3 ++ a,
      b ++ IndexFn.seg4 ++ IndexFn.renderList (IndexFn.keyQuestionsOf p) ++ IndexFn.seg5 ++
        p.url ++ IndexFn.seg6 ++ p.url ++ IndexFn.seg7,
      by simp [IndexFn.emailHtml, hr, String.append_assoc]⟩
  · intro l hl
    obtain ⟨a, b, hab⟩ := joinAll_decomp liWrap l _ hl
    have hr : IndexFn.renderList (IndexFn.keyQuestionsOf p) = a ++ ("<li>" ++ l ++ "</li>") ++ b := hab
    exact ⟨IndexFn.seg1 ++ IndexFn.meetingNameOf p ++ IndexFn.seg2 ++
        nlToBr (IndexFn.summaryOf p) ++ IndexFn.seg3 ++
        IndexFn.renderList (IndexFn.actionItemsOf p) ++ IndexFn.seg4 ++ a,
      b ++ IndexFn.seg5 ++ p.url ++ IndexFn.seg6 ++ p.url ++ IndexFn.seg7,
      by simp [IndexFn.emailHtml, hr, String.append_assoc]⟩
  · exact ⟨IndexFn.seg1 ++ IndexFn.meetingNameOf p ++ IndexFn.seg2 ++
        nlToBr (IndexFn.summaryOf p) ++ IndexFn.seg3 ++
        IndexFn.renderList (IndexFn.actionItemsOf p) ++ IndexFn.seg4 ++
        IndexFn.renderList (IndexFn.keyQuestionsOf p) ++ IndexFn.seg5,
      IndexFn.seg6 ++ p.url ++ IndexFn.seg7,
      by simp [IndexFn.emailHtml, String.append_assoc]⟩

/-- C10 witness: a page whose fields carry markup — the script tag in the
title, the bold tags in the summary, the italic line, and the url — all appear
character-for-character in the subject and body. -/
theorem fields_interpolated_verbatim_witness :
    IndexFn.subjectOf markupPage = "Meeting Summary: " ++ IndexFn.meetingNameOf markupPage
    ∧ (∃ a b, IndexFn.emailHtml markupPage = a ++ IndexFn.meetingNameOf markupPage ++ b)
    ∧ (∃ a b, IndexFn.emailHtml markupPage = a ++ IndexFn.summaryOf markupPage ++ b)
    ∧ (∃ a b, IndexFn.emailHtml markupPage = a ++ ("<li>" ++ "<i>Act</i>" ++ "</li>") ++ b)
    ∧ (∃ a b, IndexFn.emailHtml markupPage = a ++ markupPage.url ++ b) := by
  obtain ⟨h1, h2, h3, h4, -, h6⟩ := fields_interpolated_verbatim markupPage
  exact ⟨h1, h2, h3 (by decide), h4 "<i>Act</i>" (by decide), h6⟩

end MeetingSummarizer
